import Mathlib

/-!
Shallow embedding of the SGX dividend-yield screening script (src/main.py).

Modelling conventions:
* Python floats are abstracted as exact rationals (ℚ); `round(x, 2)` becomes
  `pyRound2`, round-half-to-even at two decimal places on the exact value.
* The market-data gateway responses consumed by `fetch_stock_data` are made
  explicit as a `TickerResponse`: the `fast_info` price lookup and the `info`
  dictionary lookup can each either raise (modelled by `Except.error`) or
  return data in which individual fields may be absent (`Option`).
* The pandas filter and `sort_values(by="Yield", ascending=False)` on the
  result `DataFrame` become a list filter followed by a comparison sort on
  the `Yield` field in descending order.
* Outbound Discord messages are collected into a list of `Sent` values; the
  webhook URL being configured is a boolean parameter, and per-row chart
  generation is a function `String → Option Unit` (`none` models a failed or
  empty chart download, which skips that notification).
-/

set_option allowUnsafeReducibility true in
attribute [semireducible] Rat.mul Rat.inv Rat.add Rat.sub Rat.div

namespace SGStock

/-- A per-symbol record as built by `fetch_stock_data` in src/main.py
(`{"Code": ..., "Name": ..., "Price": ..., "Yield": ...}`). -/
structure StockRow where
  Code : String
  Name : String
  Price : ℚ
  Yield : ℚ
deriving DecidableEq, Repr

/-- Round-half-to-even to the nearest integer, the tie-breaking rule of the
Python builtin `round` (floats abstracted as exact rationals). -/
def roundHalfEven (q : ℚ) : ℤ :=
  let f := q.floor
  let r := q - (f : ℚ)
  if r < 1/2 then f
  else if 1/2 < r then f + 1
  else if f % 2 = 0 then f else f + 1

/-- Model of the Python `round(x, 2)` applied in `fetch_stock_data`. -/
def pyRound2 (q : ℚ) : ℚ := (roundHalfEven (q * 100) : ℚ) / 100

/-- The fields of the yfinance `info` dictionary read by `fetch_stock_data`:
`info.get('dividendYield')` and `info.get('shortName', ticker_raw)`. -/
structure TickerInfo where
  dividendYield : Option ℚ
  shortName : Option String

/-- The gateway data consumed by `fetch_stock_data` for one ticker: the
`fast_info` price lookup and the `info` lookup, each of which may raise. -/
structure TickerResponse where
  fastPrice : Except Unit (Option ℚ)
  info : Except Unit TickerInfo

/-- The yield computation of src/main.py line 142:
`yield_pct = round(div_yield * 100, 2) if div_yield else 0.0`.
An absent value and the float `0.0` are both falsy in Python. -/
def normalize (raw : Option ℚ) : ℚ :=
  match raw with
  | none => 0
  | some d => if d = 0 then 0 else pyRound2 (d * 100)

/-- Embedding of `fetch_stock_data` (src/main.py lines 130-147): any raised
exception yields `None` via the bare `except`, a falsy price (`None` or `0.0`)
yields `None`, and otherwise a `StockRow` is produced with the rounded price
and the normalized yield. -/
def fetch_stock_data (ticker_raw : String) (resp : TickerResponse) : Option StockRow :=
  match resp.fastPrice with
  | Except.error _ => none
  | Except.ok price? =>
    match price? with
    | none => none
    | some price =>
      if price = 0 then none
      else
        match resp.info with
        | Except.error _ => none
        | Except.ok info =>
          let name := info.shortName.getD ticker_raw
          some { Code := ticker_raw, Name := name,
                 Price := pyRound2 price, Yield := normalize info.dividendYield }

/-- The result-gathering loop of `main` (src/main.py lines 157-162): every
ticker is submitted to `fetch_stock_data` and only non-`None` results are
kept.  The completion order of the thread pool only permutes `results`; the
theorems below quantify over arbitrary result lists where order matters. -/
def gather (inputs : List (String × TickerResponse)) : List StockRow :=
  inputs.filterMap fun p => fetch_stock_data p.1 p.2

/-- The threshold constant `YIELD_THRESHOLD = 6.0` of src/main.py line 14. -/
def YIELD_THRESHOLD : ℚ := 6

/-- Descending-yield comparison used to model
`sort_values(by="Yield", ascending=False)`. -/
def yieldDescRel (a b : StockRow) : Prop := b.Yield ≤ a.Yield

instance : DecidableRel yieldDescRel := fun a b =>
  inferInstanceAs (Decidable (b.Yield ≤ a.Yield))

instance : IsTotal StockRow yieldDescRel := ⟨fun a b => le_total b.Yield a.Yield⟩

instance : IsTrans StockRow yieldDescRel := ⟨fun _ _ _ h1 h2 => le_trans h2 h1⟩

/-- Embedding of src/main.py line 168:
`df[df['Yield'] >= YIELD_THRESHOLD].sort_values(by="Yield", ascending=False)`,
parameterised by the threshold as in the specification contract
`screen(symbols, threshold)`. -/
def screen (results : List StockRow) (threshold : ℚ) : List StockRow :=
  List.insertionSort yieldDescRel (results.filter fun r => decide (threshold ≤ r.Yield))

/-- Left-aligned padding with spaces to a minimum width, as the Python format
spec `{s:<w}` (no truncation). -/
def padRight (s : String) (w : Nat) : String :=
  s ++ String.mk (List.replicate (w - s.length) ' ')

/-- Right-aligned padding with spaces to a minimum width, as the Python format
spec `{s:>w}` (no truncation). -/
def padLeft (s : String) (w : Nat) : String :=
  String.mk (List.replicate (w - s.length) ' ') ++ s

/-- Model of the Python `str()` rendering of a float holding an exact number
of hundredths (the values produced by `round(x, 2)`): shortest decimal form,
trailing fractional zeros dropped but at least one fractional digit kept,
e.g. `15.0`, `6.5`, `6.55`, `6.05`. -/
def ratRepr (q : ℚ) : String :=
  let m : ℤ := (q * 100).floor
  let sign := if m < 0 then "-" else ""
  let a := m.natAbs
  let fr := a % 100
  let frs :=
    if fr % 10 = 0 then toString (fr / 10)
    else (if fr < 10 then "0" else "") ++ toString fr
  sign ++ toString (a / 100) ++ "." ++ frs

/-- One table row of the summary message, src/main.py line 180:
`f"{row['Code']:<5} {row['Yield']:>5}%   ${row['Price']:<7} {row['Name'][:15]}\n"`. -/
def formatRow (row : StockRow) : String :=
  padRight row.Code 5 ++ " " ++ padLeft (ratRepr row.Yield) 5 ++ "%   $" ++
    padRight (ratRepr row.Price) 7 ++ " " ++ row.Name.take 15 ++ "\n"

/-- Header lines of the summary message (src/main.py lines 175-178), with the
threshold constant `6.0` printed as in the f-string. -/
def reportHeader (date : String) (n : Nat) : String :=
  "**📊 SGX 高殖利率快報 (" ++ date ++ ")**\n" ++
    "篩選門檻: > **6.0%** (共發現 " ++ toString n ++ " 檔)\n" ++
    "```ini\n Code   Yield    Price     Name\n" ++
    "--------------------------------------\n"

/-- Trailing line of the summary message (src/main.py line 181). -/
def reportFooter : String := "```\n↓ 詳細走勢圖請見下方 ↓"

/-- The summary-message construction loop of `main` (src/main.py lines
175-181): starts from the header, appends one formatted row per entry of the
ranked set in order, then appends the footer. -/
def formatReport (date : String) (rows : List StockRow) : String :=
  rows.foldl (fun msg row => msg ++ formatRow row) (reportHeader date rows.length)
    ++ reportFooter

/-- An outbound Discord message: either a plain text post
(`send_discord_text`) or a chart post for one row (`send_discord_with_chart`). -/
inductive Sent where
  | text (msg : String)
  | chart (ticker : String) (row : StockRow)
deriving DecidableEq

/-- Embedding of `send_discord_text` (src/main.py lines 72-79): posts nothing
when the webhook URL is unset. -/
def send_discord_text (webhookSet : Bool) (msg : String) : List Sent :=
  if webhookSet then [Sent.text msg] else []

/-- Embedding of `send_discord_with_chart` (src/main.py lines 81-125): posts
nothing when the webhook URL is unset or the chart buffer is absent. -/
def send_discord_with_chart (webhookSet : Bool) (t : String) (row : StockRow)
    (buf : Option Unit) : List Sent :=
  match buf with
  | none => []
  | some _ => if webhookSet then [Sent.chart t row] else []

/-- Embedding of `main` (src/main.py lines 152-198) as the list of outbound
messages: an empty result batch returns immediately (line 164), an empty
high-yield set only prints (line 198), and otherwise one summary text is sent
followed by one chart message per ranked row whose chart generation succeeds
(lines 186-194). -/
def mainRun (inputs : List (String × TickerResponse)) (charts : String → Option Unit)
    (webhookSet : Bool) (date : String) : List Sent :=
  let results := gather inputs
  if results = [] then []
  else
    let high := screen results YIELD_THRESHOLD
    if high = [] then []
    else
      send_discord_text webhookSet (formatReport date high) ++
        high.foldl (fun acc row =>
          match charts row.Code with
          | none => acc
          | some b => acc ++ send_discord_with_chart webhookSet row.Code row (some b)) []

/-- Rendering with exactly one decimal digit, as claimed for the Yield column
of the report table (stated for values that are whole numbers of tenths). -/
def ratFixed1 (q : ℚ) : String :=
  let m : ℤ := (q * 10).floor
  let sign := if m < 0 then "-" else ""
  let a := m.natAbs
  sign ++ toString (a / 10) ++ "." ++ toString (a % 10)

/-- Rendering with exactly two decimal digits, as claimed for the Price column
of the report table. -/
def ratFixed2 (q : ℚ) : String :=
  let m : ℤ := (q * 100).floor
  let sign := if m < 0 then "-" else ""
  let a := m.natAbs
  sign ++ toString (a / 100) ++ "." ++ (if a % 100 < 10 then "0" else "") ++ toString (a % 100)

/-- Row layout as the specification claims it: Code in 5 characters, Yield
right-aligned with one decimal place and a percent suffix, Price left-aligned
with two decimal places and a dollar prefix.  Compared against `formatRow`,
which embeds the actual f-string of src/main.py line 180. -/
def claimRow (row : StockRow) : String :=
  padRight row.Code 5 ++ " " ++ padLeft (ratFixed1 row.Yield) 5 ++ "%   $" ++
    padRight (ratFixed2 row.Price) 7 ++ " " ++ row.Name.take 15 ++ "\n"

/-- Concatenation of the formatted rows in list order; the specification-side
description of the report body. -/
def rowsText : List StockRow → String
  | [] => ""
  | r :: rs => formatRow r ++ rowsText rs

/-- Per-symbol retrieval or parse failure as described by the specification:
the price lookup raises, the price is absent, the price is the falsy `0.0`,
or the info lookup raises. -/
def fetchFailed (resp : TickerResponse) : Prop :=
  resp.fastPrice = Except.error () ∨ resp.fastPrice = Except.ok none ∨
    resp.fastPrice = Except.ok (some 0) ∨ resp.info = Except.error ()

/-! ### Helper lemmas -/

theorem mem_screen {r : StockRow} {l : List StockRow} {T : ℚ} :
    r ∈ screen l T ↔ r ∈ l ∧ T ≤ r.Yield := by
  unfold screen
  rw [List.mem_insertionSort, List.mem_filter]
  simp

theorem fetch_code_eq {t : String} {resp : TickerResponse} {row : StockRow}
    (h : fetch_stock_data t resp = some row) : row.Code = t := by
  obtain ⟨fp, inf⟩ := resp
  unfold fetch_stock_data at h
  cases fp with
  | error e => simp at h
  | ok price? =>
    cases price? with
    | none => simp at h
    | some price =>
      by_cases h0 : price = 0
      · simp [h0] at h
      · cases inf with
        | error e => simp [h0] at h
        | ok i =>
          simp only [h0, if_false, Option.some.injEq] at h
          rw [← h]

theorem fetch_none_of_failed {t : String} {r2 : TickerResponse} (h : fetchFailed r2) :
    fetch_stock_data t r2 = none := by
  obtain ⟨fp, inf⟩ := r2
  simp only [fetchFailed] at h
  rcases h with h | h | h | h
  · subst h; rfl
  · subst h; rfl
  · subst h; simp [fetch_stock_data]
  · subst h
    cases fp with
    | error e => rfl
    | ok price? =>
      cases price? with
      | none => rfl
      | some p => simp [fetch_stock_data]

theorem fetch_none_of_price_bad {t : String} {r2 : TickerResponse}
    (h : r2.fastPrice = Except.ok none ∨ r2.fastPrice = Except.ok (some 0)) :
    fetch_stock_data t r2 = none :=
  fetch_none_of_failed (by rcases h with h | h
                           · exact Or.inr (Or.inl h)
                           · exact Or.inr (Or.inr (Or.inl h)))

theorem code_ne_of_fetch_none {inputs : List (String × TickerResponse)} {t : String}
    (hall : ∀ r2, (t, r2) ∈ inputs → fetch_stock_data t r2 = none)
    {T : ℚ} {row : StockRow} (hrow : row ∈ screen (gather inputs) T) : row.Code ≠ t := by
  intro hc
  have hg : row ∈ gather inputs := (mem_screen.mp hrow).1
  obtain ⟨⟨a, b⟩, hp, hfp⟩ := List.mem_filterMap.mp hg
  have ha : row.Code = a := fetch_code_eq hfp
  rw [hc] at ha
  subst ha
  rw [hall b hp] at hfp
  exact Option.noConfusion hfp

theorem roundHalfEven_nonneg {q : ℚ} (h : 0 ≤ q) : 0 ≤ roundHalfEven q := by
  have hf : 0 ≤ q.floor := Rat.le_floor.mpr (by exact_mod_cast h)
  simp only [roundHalfEven]
  split
  · exact hf
  · split
    · omega
    · split <;> omega

theorem pyRound2_nonneg {q : ℚ} (h : 0 ≤ q) : 0 ≤ pyRound2 q := by
  have h1 := roundHalfEven_nonneg (mul_nonneg h (by norm_num : (0:ℚ) ≤ 100))
  unfold pyRound2
  exact div_nonneg (by exact_mod_cast h1) (by norm_num)

theorem foldl_rowsText (rows : List StockRow) (s : String) :
    rows.foldl (fun msg row => msg ++ formatRow row) s = s ++ rowsText rows := by
  induction rows generalizing s with
  | nil => simp [rowsText]
  | cons r rs ih => simp [rowsText, ih, String.append_assoc]

/-! ### Claim theorems -/

/-- C1: every entry of the ranked result set `screen results T` has a yield of
at least the threshold `T`, for every threshold and every batch of fetched
results; a row whose yield is below the threshold never appears. -/
theorem screen_yield_ge_threshold (results : List StockRow) (T : ℚ) (r : StockRow)
    (h : r ∈ screen results T) : T ≤ r.Yield :=
  (mem_screen.mp h).2

/-- Witness for C1 at a concrete one-row batch and threshold 6. -/
theorem screen_yield_ge_threshold_witness :
    (⟨"D05", "DBS", 15, 7⟩ : StockRow) ∈ screen [⟨"D05", "DBS", 15, 7⟩] 6 ∧
      (6 : ℚ) ≤ (⟨"D05", "DBS", 15, 7⟩ : StockRow).Yield :=
  ⟨by decide, screen_yield_ge_threshold [⟨"D05", "DBS", 15, 7⟩] 6 ⟨"D05", "DBS", 15, 7⟩
    (by decide)⟩

/-- C2: the ranked result set is sorted by yield in descending order; each
adjacent pair of entries is non-increasing in yield, whatever the order of the
incoming results. -/
theorem screen_sorted_desc (results : List StockRow) (T : ℚ) (d : StockRow) (i : Nat)
    (h : i + 1 < (screen results T).length) :
    ((screen results T).getD (i + 1) d).Yield ≤ ((screen results T).getD i d).Yield := by
  have hs : List.Pairwise yieldDescRel (screen results T) :=
    List.sorted_insertionSort yieldDescRel _
  have hi : i < (screen results T).length := Nat.lt_of_succ_lt h
  rw [List.getD_eq_getElem _ _ h, List.getD_eq_getElem _ _ hi]
  have hp := List.pairwise_iff_get.mp hs ⟨i, hi⟩ ⟨i + 1, h⟩ (Nat.lt_succ_self i)
  simpa [List.get_eq_getElem, yieldDescRel] using hp

/-- Witness for C2: a two-row batch inserted in ascending order comes out
descending. -/
theorem screen_sorted_desc_witness :
    0 + 1 < (screen [⟨"A", "A", 1, 7⟩, ⟨"B", "B", 1, 8⟩] 6).length ∧
      ((screen [⟨"A", "A", 1, 7⟩, ⟨"B", "B", 1, 8⟩] 6).getD (0 + 1) ⟨"", "", 0, 0⟩).Yield ≤
        ((screen [⟨"A", "A", 1, 7⟩, ⟨"B", "B", 1, 8⟩] 6).getD 0 ⟨"", "", 0, 0⟩).Yield :=
  ⟨by decide, screen_sorted_desc _ 6 _ 0 (by decide)⟩

/-- C3 counterexample: the claimed scale disambiguation does not exist in the
code.  Line 142 of src/main.py always multiplies by 100, so a raw figure of
4.83 becomes 483.0, not the claimed 4.83. -/
theorem normalize_no_scale_disambiguation :
    normalize (some (483/100)) = 483 ∧ (483 : ℚ) ≠ 483/100 := by decide

/-- C3 (amended): normalization multiplies every present nonzero raw figure by
100 and rounds to two decimals, regardless of its scale; hence
normalize(0.0483) = 4.83 but normalize(4.83) = 483.0. -/
theorem normalize_always_multiplies (d : ℚ) (hd : d ≠ 0) :
    normalize (some d) = pyRound2 (d * 100) ∧
      normalize (some (483/10000)) = 483/100 ∧ normalize (some (483/100)) = 483 := by
  refine ⟨?_, by decide, by decide⟩
  simp [normalize, hd]

/-- Witness for the amended C3 at the fraction-scale figure 0.0483. -/
theorem normalize_always_multiplies_witness :
    normalize (some (483/10000)) = pyRound2 ((483/10000) * 100) ∧
      normalize (some (483/10000)) = 483/100 ∧ normalize (some (483/100)) = 483 :=
  normalize_always_multiplies (483/10000) (by decide)

/-- C4 counterexample: the claimed sanity clamp does not exist in the code;
a double-scaled figure of 483.0 normalizes to 48300.0, which exceeds 100 and
is not the claimed 4.83. -/
theorem normalize_no_upper_clamp :
    normalize (some 483) = 48300 ∧ ¬ normalize (some 483) ≤ 100 ∧
      (48300 : ℚ) ≠ 483/100 := by decide

/-- C4 (amended): no division by 100 is applied when the scaled value exceeds
100, so only the lower bound of the invariant survives: the normalized yield
is nonnegative whenever the raw figure is absent or nonnegative, while
normalize(483.0) = 48300.0 escapes the claimed upper bound. -/
theorem normalize_nonneg_unclamped (raw : Option ℚ) (h : ∀ d, raw = some d → 0 ≤ d) :
    0 ≤ normalize raw ∧ normalize (some 483) = 48300 := by
  refine ⟨?_, by decide⟩
  match raw with
  | none => simp [normalize]
  | some d =>
    have hd := h d rfl
    by_cases h0 : d = 0
    · simp [normalize, h0]
    · simp only [normalize, h0, if_false]
      exact pyRound2_nonneg (mul_nonneg hd (by norm_num))

/-- Witness for the amended C4 at the raw figure 0.0483. -/
theorem normalize_nonneg_unclamped_witness :
    0 ≤ normalize (some (483/10000)) ∧ normalize (some 483) = 48300 :=
  normalize_nonneg_unclamped (some (483/10000))
    (fun d hd => by injection hd with h2; rw [← h2]; decide)

/-- C5: when the price is available but the dividend-yield field is absent,
the symbol still produces a result record with yield 0.0, and that record is
excluded from the ranked set by the threshold comparison alone, for any
positive threshold. -/
theorem yield_absent_gives_zero_row (t : String) (p : ℚ) (hp : p ≠ 0)
    (name : Option String) (l : List StockRow) (T : ℚ) (hT : 0 < T) :
    fetch_stock_data t ⟨Except.ok (some p), Except.ok ⟨none, name⟩⟩ =
        some ⟨t, name.getD t, pyRound2 p, 0⟩ ∧
      (⟨t, name.getD t, pyRound2 p, 0⟩ : StockRow) ∉ screen l T := by
  constructor
  · simp [fetch_stock_data, normalize, hp]
  · intro hmem
    have h2 := (mem_screen.mp hmem).2
    exact absurd h2 (not_le.mpr hT)

/-- Witness for C5: price 15, absent yield, threshold 6. -/
theorem yield_absent_gives_zero_row_witness :
    fetch_stock_data "D05" ⟨Except.ok (some 15), Except.ok ⟨none, some "DBS"⟩⟩ =
        some ⟨"D05", (some "DBS").getD "D05", pyRound2 15, 0⟩ ∧
      (⟨"D05", (some "DBS").getD "D05", pyRound2 15, 0⟩ : StockRow) ∉
        screen [⟨"D05", (some "DBS").getD "D05", pyRound2 15, 0⟩] 6 :=
  yield_absent_gives_zero_row "D05" 15 (by decide) (some "DBS") _ 6 (by decide)

/-- C6 counterexample: when the batch yields no data, `main` returns at
src/main.py line 164 before any Discord call, so the run sends zero
messages, not the claimed single alert text. -/
theorem empty_batch_sends_nothing :
    mainRun [("D05", ⟨Except.ok none, Except.ok ⟨none, none⟩⟩)] (fun _ => none) true "2026-01-01"
        = [] ∧
      (mainRun [("D05", ⟨Except.ok none, Except.ok ⟨none, none⟩⟩)] (fun _ => none) true
        "2026-01-01").length ≠ 1 := by decide

/-- C6 (amended): when the data fetch for the whole batch returns no data, the
run sends no messages at all and performs no further processing. -/
theorem empty_batch_no_messages (inputs : List (String × TickerResponse))
    (charts : String → Option Unit) (w : Bool) (date : String)
    (h : gather inputs = []) : mainRun inputs charts w date = [] := by
  simp [mainRun, h]

/-- Witness for the amended C6: a one-symbol batch whose price lookup returns
nothing. -/
theorem empty_batch_no_messages_witness :
    mainRun [("D05", ⟨Except.ok none, Except.ok ⟨none, none⟩⟩)] (fun _ => none) true "2026-01-01"
      = [] :=
  empty_batch_no_messages _ _ _ _ (by decide)

/-- C7: a per-symbol retrieval or parse failure (price lookup raising, price
absent or falsy, or info lookup raising) only makes `fetch_stock_data` return
`none` for that symbol; when every response for a symbol fails that way, no
row of the ranked result set carries its code. -/
theorem failed_symbol_never_ranked (t : String) (resp : TickerResponse)
    (hf : fetchFailed resp) (inputs : List (String × TickerResponse))
    (hall : ∀ r2, (t, r2) ∈ inputs → fetchFailed r2) (T : ℚ) (row : StockRow) :
    fetch_stock_data t resp = none ∧
      (row ∈ screen (gather inputs) T → row.Code ≠ t) :=
  ⟨fetch_none_of_failed hf,
    fun hrow => code_ne_of_fetch_none (fun r2 hm => fetch_none_of_failed (hall r2 hm)) hrow⟩

/-- Witness for C7: the price lookup raises for the only configured symbol. -/
theorem failed_symbol_never_ranked_witness :
    fetch_stock_data "D05" ⟨Except.error (), Except.ok ⟨some 7, some "DBS"⟩⟩ = none ∧
      ((⟨"D05", "X", 1, 7⟩ : StockRow) ∈
          screen (gather [("D05", ⟨Except.error (), Except.ok ⟨some 7, some "DBS"⟩⟩)]) 6 →
        (⟨"D05", "X", 1, 7⟩ : StockRow).Code ≠ "D05") :=
  failed_symbol_never_ranked "D05" ⟨Except.error (), Except.ok ⟨some 7, some "DBS"⟩⟩
    (Or.inl rfl) [("D05", ⟨Except.error (), Except.ok ⟨some 7, some "DBS"⟩⟩)]
    (fun r2 hm => by
      rw [List.mem_singleton] at hm
      have h2 : r2 = ⟨Except.error (), Except.ok ⟨some 7, some "DBS"⟩⟩ :=
        congrArg Prod.snd hm
      rw [h2]
      exact Or.inl rfl)
    6 ⟨"D05", "X", 1, 7⟩

/-- C8 counterexample: the report row is rendered with the Python default
float formatting, not with the claimed fixed one-decimal Yield and
two-decimal Price: a price of 15 prints as `$15.0`, not `$15.00`. -/
theorem formatRow_not_fixed_decimal :
    formatRow ⟨"D05", "DBS", 15, 13/2⟩ = "D05     6.5%   $15.0    DBS\n" ∧
      claimRow ⟨"D05", "DBS", 15, 13/2⟩ = "D05     6.5%   $15.00   DBS\n" ∧
      formatRow ⟨"D05", "DBS", 15, 13/2⟩ ≠ claimRow ⟨"D05", "DBS", 15, 13/2⟩ := by decide

set_option maxRecDepth 100000 in
/-- C8 (amended): the report is a deterministic function of the ranked result
set; it is the fixed header, then one row per entry in ranked order — Code
left-aligned in 5 characters, Yield right-aligned in 5 characters in the
shortest decimal form of the value (not a fixed one decimal) suffixed with a
percent sign, Price prefixed with a dollar sign and left-aligned in 7
characters in shortest decimal form (not a fixed two decimals), the name
truncated to 15 characters — then the fixed footer. -/
theorem formatReport_structure (date : String) (rows : List StockRow) :
    formatReport date rows = reportHeader date rows.length ++ rowsText rows ++ reportFooter ∧
      formatReport "2025-01-01" [⟨"D05", "DBS", 15, 13/2⟩] =
        "**📊 SGX 高殖利率快報 (2025-01-01)**\n篩選門檻: > **6.0%** (共發現 1 檔)\n```ini\n Code   Yield    Price     Name\n--------------------------------------\nD05     6.5%   $15.0    DBS\n```\n↓ 詳細走勢圖請見下方 ↓" := by
  constructor
  · unfold formatReport
    rw [foldl_rowsText]
  · decide

/-- C9: for a symbol with nonzero price and nonzero raw yield, the stored
record carries the raw yield times 100 rounded to two decimals and the price
rounded to two decimals, and the threshold filter tests exactly that rounded
yield value. -/
theorem rounded_values_filter (t : String) (name : Option String) (p d : ℚ)
    (hp : p ≠ 0) (hd : d ≠ 0) (T : ℚ) :
    fetch_stock_data t ⟨Except.ok (some p), Except.ok ⟨some d, name⟩⟩ =
        some ⟨t, name.getD t, pyRound2 p, pyRound2 (d * 100)⟩ ∧
      ((⟨t, name.getD t, pyRound2 p, pyRound2 (d * 100)⟩ : StockRow) ∈
          screen [⟨t, name.getD t, pyRound2 p, pyRound2 (d * 100)⟩] T ↔
        T ≤ pyRound2 (d * 100)) := by
  constructor
  · simp [fetch_stock_data, normalize, hp, hd]
  · rw [mem_screen]
    simp

/-- Witness for C9: the raw figure 0.05999 scales to 5.999, rounds up to 6.0,
and therefore passes the 6.0 threshold even though 5.999 is below it. -/
theorem rounded_values_filter_witness :
    (fetch_stock_data "D05" ⟨Except.ok (some 1), Except.ok ⟨some (5999/100000), none⟩⟩ =
        some ⟨"D05", (none : Option String).getD "D05", pyRound2 1,
          pyRound2 (5999/100000 * 100)⟩ ∧
      ((⟨"D05", (none : Option String).getD "D05", pyRound2 1,
            pyRound2 (5999/100000 * 100)⟩ : StockRow) ∈
          screen [⟨"D05", (none : Option String).getD "D05", pyRound2 1,
            pyRound2 (5999/100000 * 100)⟩] 6 ↔
        (6 : ℚ) ≤ pyRound2 (5999/100000 * 100))) ∧
      pyRound2 (5999/100000 * 100) = 6 ∧ (5999/100000 * 100 : ℚ) < 6 :=
  ⟨rounded_values_filter "D05" none 1 (5999/100000) (by decide) (by decide) 6,
    by decide, by decide⟩

/-- C10: a symbol whose latest price comes back as `None` or the falsy `0` is
skipped entirely, even when its yield figure is present and large; when every
response for the symbol has such a price, no row of the ranked result set
carries its code. -/
theorem zero_price_symbol_skipped (t : String) (price? : Option ℚ)
    (hp : price? = none ∨ price? = some 0) (inf : TickerInfo)
    (inputs : List (String × TickerResponse))
    (hall : ∀ r2, (t, r2) ∈ inputs →
      r2.fastPrice = Except.ok none ∨ r2.fastPrice = Except.ok (some 0))
    (T : ℚ) (row : StockRow) :
    fetch_stock_data t ⟨Except.ok price?, Except.ok inf⟩ = none ∧
      (row ∈ screen (gather inputs) T → row.Code ≠ t) := by
  constructor
  · refine fetch_none_of_price_bad ?_
    rcases hp with h | h
    · exact Or.inl (by rw [h])
    · exact Or.inr (by rw [h])
  · exact fun hrow =>
      code_ne_of_fetch_none (fun r2 hm => fetch_none_of_price_bad (hall r2 hm)) hrow

/-- Witness for C10: price 0 with a 10 percent dividend yield is still
skipped. -/
theorem zero_price_symbol_skipped_witness :
    fetch_stock_data "D05" ⟨Except.ok (some 0), Except.ok ⟨some (1/10), some "DBS"⟩⟩ = none ∧
      ((⟨"D05", "X", 1, 7⟩ : StockRow) ∈
          screen (gather [("D05", ⟨Except.ok (some 0), Except.ok ⟨some (1/10), some "DBS"⟩⟩)]) 6 →
        (⟨"D05", "X", 1, 7⟩ : StockRow).Code ≠ "D05") :=
  zero_price_symbol_skipped "D05" (some 0) (Or.inr rfl) ⟨some (1/10), some "DBS"⟩
    [("D05", ⟨Except.ok (some 0), Except.ok ⟨some (1/10), some "DBS"⟩⟩)]
    (fun r2 hm => by
      rw [List.mem_singleton] at hm
      have h2 : r2 = ⟨Except.ok (some 0), Except.ok ⟨some (1/10), some "DBS"⟩⟩ :=
        congrArg Prod.snd hm
      rw [h2]
      exact Or.inr rfl)
    6 ⟨"D05", "X", 1, 7⟩

end SGStock
